import Mathlib

/-!
Verification of the commit-ai CLI (src/app.ts).

The program is embedded shallowly: each TypeScript function becomes a pure
Lean function.  Ambient effects are made explicit through a `World` record:
environment-variable lookups (`Deno.env.get`), subprocess execution
(`Deno.Command(...).output()`, which either rejects at spawn time or yields an
exit code with captured stdout/stderr), and the two AI HTTP endpoints.
Observable actions (console output, subprocess spawns, backend construction,
network requests, backend invocation) are collected in an event trace.
-/

namespace CommitAI

/-- JavaScript `a || d` on a `string | undefined` value: `undefined` and the
empty string are falsy, every other string is truthy. -/
def jsOr (v : Option String) (d : String) : String :=
  match v with
  | none => d
  | some s => if s = "" then d else s

/-- JavaScript `String.prototype.trim()`: drop leading and trailing
whitespace characters (modelled with `Char.isWhitespace`). -/
def jsTrim (s : String) : String :=
  String.mk (((s.data.dropWhile Char.isWhitespace).reverse.dropWhile
    Char.isWhitespace).reverse)

/-- JavaScript `s.split(':')`: the one-character separator splits the string
at every occurrence of `':'`, keeping empty pieces. -/
def jsSplitColon (s : String) : List String :=
  (s.data.splitOnP (fun c => c == ':')).map String.mk

/-- Whether the first list begins with the second list (helper for
JavaScript `String.prototype.startsWith`). -/
def listLeadsWith [BEq α] : List α → List α → Bool
  | _, [] => true
  | [], _ :: _ => false
  | x :: xs, p :: ps => p == x && listLeadsWith xs ps

/-- JavaScript `s.startsWith(pat)`. -/
def strStartsWith (s pat : String) : Bool :=
  listLeadsWith s.data pat.data

/-- Exit code plus captured streams of a subprocess that did run
(the resolved value of `Deno.Command(...).output()`). -/
structure ProcOut where
  code : Nat
  procStdout : String
  procStderr : String
  deriving DecidableEq

/-- Shape of an OpenAI chat-completion HTTP response as the program reads it:
`ok`/`statusText` from `fetch`, and `content` standing for the optional
`data.choices[0]?.message?.content` field of the decoded JSON body. -/
structure HttpResp where
  ok : Bool
  statusText : String
  content : Option String
  deriving DecidableEq

/-- The ambient world.  `run exe args` models `Deno.Command(exe, args).output()`:
`.error` is a rejected promise (the subprocess could not be spawned, e.g. the
executable is missing), `.ok` is a completed subprocess.  `openaiResp key prompt`
models the OpenAI HTTP exchange; `googleResp key prompt` models the Google SDK
call, returning the generated text (`result.response.text()`). -/
structure World where
  vars : String → Option String
  run : String → List String → Except String ProcOut
  openaiResp : String → String → Except String HttpResp
  googleResp : String → String → Except String String

/-- Observable actions of the program. -/
inductive Event where
  | out (line : String)
  | errLine (line : String)
  | spawn (exe : String) (args : List String)
  | construct (provider : String)
  | net (provider : String)
  | invokeGen
  | exitZero
  deriving DecidableEq

/-- `const gitCommand = Deno.env.get('GIT_COMMAND') || '/usr/bin/git'`. -/
def gitCommand (w : World) : String :=
  jsOr (w.vars "GIT_COMMAND") "/usr/bin/git"

/-- Error message thrown by `createOpenAIService` when the key is missing. -/
def openaiKeyMissingMsg : String :=
  "OPENAI_API_KEY environment variable is not set. Please set it using \"export OPENAI_API_KEY=your-key\""

/-- Error message thrown by `createGoogleService` when the key is missing. -/
def googleKeyMissingMsg : String :=
  "GOOGLE_API_KEY environment variable is not set. Please set it using \"export GOOGLE_API_KEY=your-key\""

/-- A constructed AI service value (the closure returned by the factory). -/
inductive Service where
  | openai (apiKey : String)
  | claude
  | google (apiKey : String)
  deriving DecidableEq

/-- The fixed prompt template shared by the OpenAI and Google backends. -/
def promptFor (diff : String) : String :=
  "Write a concise Git commit message that summarizes the following code changes:\n\n" ++ diff

/-- `createOpenAIService`: reads `OPENAI_API_KEY` (coalescing `undefined` to
`''`) and throws when the key is falsy. -/
def createOpenAIService (w : World) : Except String Service × List Event :=
  let apiKey := jsOr (w.vars "OPENAI_API_KEY") ""
  if apiKey = "" then
    (Except.error openaiKeyMissingMsg, [Event.construct "openai"])
  else
    (Except.ok (Service.openai apiKey), [Event.construct "openai"])

/-- `createGoogleService`: reads `GOOGLE_API_KEY` (coalescing `undefined` to
`''`) and throws when the key is falsy. -/
def createGoogleService (w : World) : Except String Service × List Event :=
  let apiKey := jsOr (w.vars "GOOGLE_API_KEY") ""
  if apiKey = "" then
    (Except.error googleKeyMissingMsg, [Event.construct "google"])
  else
    (Except.ok (Service.google apiKey), [Event.construct "google"])

/-- `createClaudeService`: reads nothing, always succeeds. -/
def createClaudeService (_w : World) : Except String Service × List Event :=
  (Except.ok Service.claude, [Event.construct "claude"])

/-- The OpenAI `generateMessage` closure: builds the prompt, performs one
HTTP request, checks the status, extracts the nested content field, and
returns the content trimmed. -/
def openaiGenerateMessage (w : World) (apiKey diff : String) :
    Except String String × List Event :=
  match w.openaiResp apiKey (promptFor diff) with
  | Except.error e => (Except.error e, [Event.net "openai"])
  | Except.ok resp =>
    if !resp.ok then
      (Except.error ("OpenAI API request failed: " ++ resp.statusText),
        [Event.net "openai"])
    else
      match resp.content with
      | none =>
        (Except.error "Invalid response format from OpenAI API",
          [Event.net "openai"])
      | some content => (Except.ok (jsTrim content), [Event.net "openai"])

/-- The Google `generateMessage` closure: builds the prompt, performs one SDK
call, rejects empty generated text, and returns the text trimmed. -/
def googleGenerateMessage (w : World) (apiKey diff : String) :
    Except String String × List Event :=
  match w.googleResp apiKey (promptFor diff) with
  | Except.error e => (Except.error e, [Event.net "google"])
  | Except.ok text =>
    if text = "" then
      (Except.error "No content generated from Google Gemini API",
        [Event.net "google"])
    else
      (Except.ok (jsTrim text), [Event.net "google"])

/-- The Claude `generateMessage` closure: after an artificial asynchronous
yield it unconditionally throws; no subprocess and no network request. -/
def claudeGenerateMessage (_diff : String) : Except String String × List Event :=
  (Except.error "Claude service not implemented yet", [])

/-- Dispatch of `aiService.generateMessage(diff)` over the constructed
service value. -/
def generateMessage (w : World) : Service → String → Except String String × List Event
  | Service.openai key, diff => openaiGenerateMessage w key diff
  | Service.claude, diff => claudeGenerateMessage diff
  | Service.google key, diff => googleGenerateMessage w key diff

/-- Arguments of the probe subprocess in `isGitRepository`. -/
def probeArgs : List String := ["rev-parse", "--is-inside-work-tree"]

/-- `isGitRepository`: spawns `git rev-parse --is-inside-work-tree` and
compares the exit code with `0`; a spawn failure propagates (the source has
no try/catch). -/
def isGitRepository (w : World) : Except String Bool × List Event :=
  match w.run (gitCommand w) probeArgs with
  | Except.error e => (Except.error e, [Event.spawn (gitCommand w) probeArgs])
  | Except.ok r => (Except.ok (r.code == 0), [Event.spawn (gitCommand w) probeArgs])

/-- The `console.log('Running git command:', [gitCommand, ...cmd].join(' '))`
line printed by `getDiff`. -/
def gitLogLine (w : World) (cmd : List String) : String :=
  "Running git command: " ++ String.intercalate " " (gitCommand w :: cmd)

/-- The tail of `getDiff` after `cmd` has been chosen: log the command, run
it, surface the captured stderr on a non-zero exit, and otherwise return the
captured stdout unchanged. -/
def runGit (w : World) (cmd : List String) : Except String String × List Event :=
  match w.run (gitCommand w) cmd with
  | Except.error e =>
    (Except.error e, [Event.out (gitLogLine w cmd), Event.spawn (gitCommand w) cmd])
  | Except.ok r =>
    if r.code ≠ 0 then
      (Except.error ("Git command failed: " ++ r.procStderr),
        [Event.out (gitLogLine w cmd), Event.spawn (gitCommand w) cmd])
    else
      (Except.ok r.procStdout,
        [Event.out (gitLogLine w cmd), Event.spawn (gitCommand w) cmd])

/-- `getDiff`: maps the selector to a git argument vector (throwing
`'Invalid source'` on anything unrecognized), then logs and runs the
command (`runGit`). -/
def getDiff (w : World) (source : String) : Except String String × List Event :=
  if source = "staged" then runGit w ["diff", "--cached"]
  else if source = "last" then runGit w ["show", "HEAD"]
  else if strStartsWith source "commit:" then
    runGit w ["show", (jsSplitColon source).getD 1 ""]
  else (Except.error "Invalid source", [])

/-- Parsed command-line arguments (after `parseArgs` has applied defaults). -/
structure Args where
  ai : String
  source : String
  help : Bool
  verbose : Bool
  command : Bool

/-- The usage text printed for `--help`. -/
def usageText : String :=
  "Usage: app-name [options]\n\nOptions:\n  --ai <provider>    Select AI provider (openai, claude, google)\n  --source <source>  Specify the source of changes (staged, commit:<hash>, last)\n  --verbose          Show the diff alongside the message\n  --command          Output the full git commit command\n  --help             Show this help message\n"

/-- The allowed provider list of `main`. -/
def supportedProviders : List String := ["openai", "claude", "google"]

/-- The `Unsupported AI provider` message, listing the allowed set. -/
def unsupportedProviderMsg (ai : String) : String :=
  "Unsupported AI provider: " ++ ai ++ ". Supported providers: " ++
    String.intercalate ", " supportedProviders

/-- The informational message printed when the diff is empty after trimming. -/
def noChangesMsg : String := "No changes to generate a message for."

/-- The `switch (args.ai)` backend factory dispatch of `main`. -/
def selectService (w : World) (ai : String) : Except String Service × List Event :=
  match ai with
  | "openai" => createOpenAIService w
  | "claude" => createClaudeService w
  | "google" => createGoogleService w
  | _ => (Except.error "Invalid AI provider", [])

/-- `main`: help short-circuit, repository probe (soft exit when false),
provider validation, backend construction, diff resolution, empty-diff soft
exit, optional verbose dump, backend invocation, rendering. -/
def main (w : World) (args : Args) : Except String Unit × List Event :=
  if args.help then
    (Except.ok (), [Event.out usageText, Event.exitZero])
  else
    match isGitRepository w with
    | (Except.error e, t1) => (Except.error e, t1)
    | (Except.ok repo, t1) =>
      if !repo then
        (Except.ok (), t1 ++ [Event.errLine "Not a Git repository."])
      else if !(supportedProviders.contains args.ai) then
        (Except.error (unsupportedProviderMsg args.ai), t1)
      else
        match selectService w args.ai with
        | (Except.error e, t2) => (Except.error e, t1 ++ t2)
        | (Except.ok aiService, t2) =>
          match getDiff w args.source with
          | (Except.error e, t3) => (Except.error e, t1 ++ t2 ++ t3)
          | (Except.ok diff, t3) =>
            if jsTrim diff = "" then
              (Except.ok (), t1 ++ t2 ++ t3 ++ [Event.out noChangesMsg])
            else
              let t4 : List Event :=
                if args.verbose then [Event.out "Original Diff:", Event.out diff]
                else []
              match generateMessage w aiService diff with
              | (Except.error e, t5) =>
                (Except.error e, t1 ++ t2 ++ t3 ++ t4 ++ [Event.invokeGen] ++ t5)
              | (Except.ok message, t5) =>
                let t6 := t1 ++ t2 ++ t3 ++ t4 ++ [Event.invokeGen] ++ t5 ++
                  [Event.out "Suggested Commit Message:", Event.out message]
                if args.command then
                  (Except.ok (), t6 ++
                    [Event.out "\nRun the following command to commit:",
                     Event.out ("git commit -m \"" ++ message ++ "\"")])
                else
                  (Except.ok (), t6)

/-- The top-level `main().catch(...)` wrapper: a propagated failure is
rendered as a final `Error: <message>` line on the error stream. -/
def runCLI (w : World) (args : Args) : List Event :=
  match main w args with
  | (Except.ok _, t) => t
  | (Except.error e, t) => t ++ [Event.errLine ("Error: " ++ e)]

/-! ### Concrete worlds and argument records used in witnesses -/

/-- A repository world: every subprocess exits 0 with stdout `OUT`; no
environment variables are set. -/
def wOk : World where
  vars := fun _ => none
  run := fun _ _ => Except.ok ⟨0, "OUT", ""⟩
  openaiResp := fun _ _ => Except.error "unused"
  googleResp := fun _ _ => Except.error "unused"

/-- A repository world whose diff subprocesses produce empty stdout. -/
def wEmptyOut : World where
  vars := fun _ => none
  run := fun _ _ => Except.ok ⟨0, "", ""⟩
  openaiResp := fun _ _ => Except.error "unused"
  googleResp := fun _ _ => Except.error "unused"

/-- A world whose subprocesses exit 1 with the stderr of a bad-object probe. -/
def wFail1 : World where
  vars := fun _ => none
  run := fun _ _ => Except.ok ⟨1, "", "fatal: bad object abc123"⟩
  openaiResp := fun _ _ => Except.error "unused"
  googleResp := fun _ _ => Except.error "unused"

/-- A repository world with an OpenAI key set and an OpenAI endpoint that
answers `Fix bug`. -/
def wKeyed : World where
  vars := fun k => if k = "OPENAI_API_KEY" then some "sk-test" else none
  run := fun _ _ => Except.ok ⟨0, "OUT", ""⟩
  openaiResp := fun _ _ => Except.ok ⟨true, "OK", some "Fix bug"⟩
  googleResp := fun _ _ => Except.ok "Fix bug"

/-- A world in which no subprocess can be spawned (missing executable). -/
def wSpawnFail : World where
  vars := fun _ => none
  run := fun _ _ => Except.error "No such file or directory (os error 2)"
  openaiResp := fun _ _ => Except.error "unused"
  googleResp := fun _ _ => Except.error "unused"

/-- A world outside any repository: the probe exits 128. -/
def wCode128 : World where
  vars := fun _ => none
  run := fun _ _ => Except.ok ⟨128, "", "fatal: not a git repository"⟩
  openaiResp := fun _ _ => Except.error "unused"
  googleResp := fun _ _ => Except.error "unused"

/-- A world in which every environment variable is set to the empty string. -/
def wEmptyStr : World where
  vars := fun _ => some ""
  run := fun _ _ => Except.ok ⟨0, "OUT", ""⟩
  openaiResp := fun _ _ => Except.error "unused"
  googleResp := fun _ _ => Except.error "unused"

/-- Default arguments. -/
def argsDefault : Args := ⟨"openai", "staged", false, false, false⟩

/-- Arguments selecting the unrecognized provider `foo`. -/
def argsFoo : Args := ⟨"foo", "staged", false, false, false⟩

/-- Arguments selecting the claude provider and the staged selector. -/
def argsClaude : Args := ⟨"claude", "staged", false, false, false⟩

/-- Arguments with the command flag set. -/
def argsCmd : Args := ⟨"openai", "staged", false, false, true⟩

/-- Arguments selecting openai with the unrecognized selector `foo`. -/
def argsOpenaiFoo : Args := ⟨"openai", "foo", false, false, false⟩

/-! ### Helper lemmas -/

/-- Splitting `commit:<hash>` on `:` yields `commit` and the hash, when the
hash itself contains no colon. -/
theorem jsSplitColon_commit (hash : String) (h : ∀ c ∈ hash.data, c ≠ ':') :
    jsSplitColon ("commit:" ++ hash) = ["commit", hash] := by
  unfold jsSplitColon
  rw [String.data_append]
  have hd : ("commit:").data ++ hash.data
      = ['c', 'o', 'm', 'm', 'i', 't'] ++ ':' :: hash.data := rfl
  rw [hd]
  rw [List.splitOnP_first (fun c => c == ':') ['c', 'o', 'm', 'm', 'i', 't']
    (by decide) ':' (by decide)]
  rw [List.splitOnP_eq_single (fun c => c == ':') hash.data (by
    intro x hx
    simpa using h x hx)]
  simp

/-- A list begins with itself extended by anything. -/
theorem listLeadsWith_append [BEq α] [LawfulBEq α] (p xs : List α) :
    listLeadsWith (p ++ xs) p = true := by
  induction p with
  | nil => cases xs <;> rfl
  | cons a as ih => simp [listLeadsWith, ih]

/-- `commit:<hash>` starts with `commit:`. -/
theorem strStartsWith_commit (hash : String) :
    strStartsWith ("commit:" ++ hash) "commit:" = true := by
  unfold strStartsWith
  rw [String.data_append]
  exact listLeadsWith_append _ _

/-- `commit:<hash>` is never the selector `staged`. -/
theorem commit_ne_staged (hash : String) : ("commit:" ++ hash) ≠ "staged" := by
  intro h
  have h2 := congrArg String.data h
  rw [String.data_append] at h2
  have hd : ("commit:").data = 'c' :: "ommit:".data := rfl
  have hs : ("staged").data = 's' :: "taged".data := rfl
  rw [hd, hs, List.cons_append] at h2
  exact absurd (List.head_eq_of_cons_eq h2) (by decide)

/-- `commit:<hash>` is never the selector `last`. -/
theorem commit_ne_last (hash : String) : ("commit:" ++ hash) ≠ "last" := by
  intro h
  have h2 := congrArg String.data h
  rw [String.data_append] at h2
  have hd : ("commit:").data = 'c' :: "ommit:".data := rfl
  have hs : ("last").data = 'l' :: "ast".data := rfl
  rw [hd, hs, List.cons_append] at h2
  exact absurd (List.head_eq_of_cons_eq h2) (by decide)

/-- Unfolding of the repository probe when the subprocess runs. -/
theorem isGitRepository_run (w : World) (r : ProcOut)
    (h : w.run (gitCommand w) probeArgs = Except.ok r) :
    isGitRepository w
      = (Except.ok (r.code == 0), [Event.spawn (gitCommand w) probeArgs]) := by
  simp [isGitRepository, h]

/-- `getDiff` rejects every unrecognized selector without spawning. -/
theorem getDiff_invalid_eq (w : World) (source : String)
    (h1 : source ≠ "staged") (h2 : source ≠ "last")
    (h3 : strStartsWith source "commit:" = false) :
    getDiff w source = (Except.error "Invalid source", []) := by
  simp [getDiff, h1, h2, h3]

/-- The factory dispatch never records a backend invocation. -/
theorem invokeGen_notin_selectService (w : World) (ai : String) :
    Event.invokeGen ∉ (selectService w ai).snd := by
  unfold selectService
  split
  · unfold createOpenAIService
    by_cases h : jsOr (w.vars "OPENAI_API_KEY") "" = "" <;> simp [h]
  · simp [createClaudeService]
  · unfold createGoogleService
    by_cases h : jsOr (w.vars "GOOGLE_API_KEY") "" = "" <;> simp [h]
  · simp

/-- Running a chosen git command never records a backend invocation. -/
theorem invokeGen_notin_runGit (w : World) (cmd : List String) :
    Event.invokeGen ∉ (runGit w cmd).snd := by
  unfold runGit
  split
  · simp
  · split <;> simp

/-- The diff resolver never records a backend invocation. -/
theorem invokeGen_notin_getDiff (w : World) (source : String) :
    Event.invokeGen ∉ (getDiff w source).snd := by
  unfold getDiff
  split
  · exact invokeGen_notin_runGit w _
  · split
    · exact invokeGen_notin_runGit w _
    · split
      · exact invokeGen_notin_runGit w _
      · simp

/-- `runGit` on a zero-exit subprocess returns the captured stdout. -/
theorem runGit_zero_exit (w : World) (cmd : List String) (r : ProcOut)
    (hrun : w.run (gitCommand w) cmd = Except.ok r) (hzero : r.code = 0) :
    runGit w cmd = (Except.ok r.procStdout,
      [Event.out (gitLogLine w cmd), Event.spawn (gitCommand w) cmd]) := by
  simp [runGit, hrun, hzero]

/-- `runGit` on a non-zero-exit subprocess surfaces the captured stderr. -/
theorem runGit_nonzero_exit (w : World) (cmd : List String) (r : ProcOut)
    (hrun : w.run (gitCommand w) cmd = Except.ok r) (hnz : r.code ≠ 0) :
    runGit w cmd = (Except.error ("Git command failed: " ++ r.procStderr),
      [Event.out (gitLogLine w cmd), Event.spawn (gitCommand w) cmd]) := by
  simp [runGit, hrun, hnz]

/-- Dispatch of `getDiff` on the `commit:<hash>` selector for a colon-free
hash. -/
theorem getDiff_commit_eq (w : World) (hash : String)
    (hcolon : ∀ c ∈ hash.data, c ≠ ':') :
    getDiff w ("commit:" ++ hash) = runGit w ["show", hash] := by
  unfold getDiff
  rw [if_neg (commit_ne_staged hash), if_neg (commit_ne_last hash),
    if_pos (strStartsWith_commit hash), jsSplitColon_commit hash hcolon]
  rfl

/-! ### The claims -/

/-- C1: for every selector form, `getDiff` maps `staged` to `diff --cached`,
`last` to `show HEAD`, and `commit:<hash>` to `show <hash>` (hash taken
colon-free, since the source splits on every colon), and on a zero
subprocess exit it returns the subprocess's captured standard output
exactly, with no trimming or any other transformation. -/
theorem getDiff_selector_mapping (w : World) (hash : String)
    (hcolon : ∀ c ∈ hash.data, c ≠ ':') (r : ProcOut) (hzero : r.code = 0) :
    (w.run (gitCommand w) ["diff", "--cached"] = Except.ok r →
      getDiff w "staged" = (Except.ok r.procStdout,
        [Event.out (gitLogLine w ["diff", "--cached"]),
         Event.spawn (gitCommand w) ["diff", "--cached"]])) ∧
    (w.run (gitCommand w) ["show", "HEAD"] = Except.ok r →
      getDiff w "last" = (Except.ok r.procStdout,
        [Event.out (gitLogLine w ["show", "HEAD"]),
         Event.spawn (gitCommand w) ["show", "HEAD"]])) ∧
    (w.run (gitCommand w) ["show", hash] = Except.ok r →
      getDiff w ("commit:" ++ hash) = (Except.ok r.procStdout,
        [Event.out (gitLogLine w ["show", hash]),
         Event.spawn (gitCommand w) ["show", hash]])) := by
  refine ⟨fun hrun => ?_, fun hrun => ?_, fun hrun => ?_⟩
  · show getDiff w "staged" = _
    unfold getDiff
    rw [if_pos rfl]
    exact runGit_zero_exit w _ r hrun hzero
  · show getDiff w "last" = _
    unfold getDiff
    rw [if_neg (by decide), if_pos rfl]
    exact runGit_zero_exit w _ r hrun hzero
  · rw [getDiff_commit_eq w hash hcolon]
    exact runGit_zero_exit w _ r hrun hzero

/-- C1 witness: in a world whose subprocesses exit 0 with stdout `OUT`, the
three selector forms produce the mapped commands and return `OUT` verbatim. -/
theorem getDiff_selector_mapping_witness :
    getDiff wOk "staged" = (Except.ok "OUT",
      [Event.out "Running git command: /usr/bin/git diff --cached",
       Event.spawn "/usr/bin/git" ["diff", "--cached"]]) ∧
    getDiff wOk "last" = (Except.ok "OUT",
      [Event.out "Running git command: /usr/bin/git show HEAD",
       Event.spawn "/usr/bin/git" ["show", "HEAD"]]) ∧
    getDiff wOk "commit:abc123" = (Except.ok "OUT",
      [Event.out "Running git command: /usr/bin/git show abc123",
       Event.spawn "/usr/bin/git" ["show", "abc123"]]) :=
  ⟨(getDiff_selector_mapping wOk "abc123" (by decide) ⟨0, "OUT", ""⟩ rfl).1 rfl,
   (getDiff_selector_mapping wOk "abc123" (by decide) ⟨0, "OUT", ""⟩ rfl).2.1 rfl,
   (getDiff_selector_mapping wOk "abc123" (by decide) ⟨0, "OUT", ""⟩ rfl).2.2 rfl⟩

/-- C5: every selector that is not `staged`, not `last` and does not start
with `commit:` makes `getDiff` fail with `Invalid source`, with an empty
event trace — in particular no subprocess is spawned. -/
theorem getDiff_unrecognized_selector (w : World) (source : String)
    (h1 : source ≠ "staged") (h2 : source ≠ "last")
    (h3 : strStartsWith source "commit:" = false) :
    getDiff w source = (Except.error "Invalid source", []) :=
  getDiff_invalid_eq w source h1 h2 h3

/-- C5 witness: the selector `foo` is rejected without any spawn. -/
theorem getDiff_unrecognized_selector_witness :
    getDiff wOk "foo" = (Except.error "Invalid source", []) :=
  getDiff_unrecognized_selector wOk "foo" (by decide) (by decide) (by decide)

/-- C6: for every selector form, a non-zero subprocess exit makes `getDiff`
fail with a `Git command failed:` message that carries the captured
standard-error text verbatim, and no (partial) diff text is ever returned. -/
theorem getDiff_nonzero_exit_surfaces_stderr (w : World) (hash : String)
    (hcolon : ∀ c ∈ hash.data, c ≠ ':') (r : ProcOut) (hnz : r.code ≠ 0) :
    (w.run (gitCommand w) ["diff", "--cached"] = Except.ok r →
      getDiff w "staged" = (Except.error ("Git command failed: " ++ r.procStderr),
        [Event.out (gitLogLine w ["diff", "--cached"]),
         Event.spawn (gitCommand w) ["diff", "--cached"]])) ∧
    (w.run (gitCommand w) ["show", "HEAD"] = Except.ok r →
      getDiff w "last" = (Except.error ("Git command failed: " ++ r.procStderr),
        [Event.out (gitLogLine w ["show", "HEAD"]),
         Event.spawn (gitCommand w) ["show", "HEAD"]])) ∧
    (w.run (gitCommand w) ["show", hash] = Except.ok r →
      getDiff w ("commit:" ++ hash) =
        (Except.error ("Git command failed: " ++ r.procStderr),
        [Event.out (gitLogLine w ["show", hash]),
         Event.spawn (gitCommand w) ["show", hash]])) := by
  refine ⟨fun hrun => ?_, fun hrun => ?_, fun hrun => ?_⟩
  · show getDiff w "staged" = _
    unfold getDiff
    rw [if_pos rfl]
    exact runGit_nonzero_exit w _ r hrun hnz
  · show getDiff w "last" = _
    unfold getDiff
    rw [if_neg (by decide), if_pos rfl]
    exact runGit_nonzero_exit w _ r hrun hnz
  · rw [getDiff_commit_eq w hash hcolon]
    exact runGit_nonzero_exit w _ r hrun hnz

/-- C6 witness: selector `commit:abc123`, subprocess exit 1 with stderr
`fatal: bad object abc123` — the failure message carries that text
verbatim and no diff text is returned. -/
theorem getDiff_nonzero_exit_surfaces_stderr_witness :
    getDiff wFail1 "commit:abc123" =
      (Except.error "Git command failed: fatal: bad object abc123",
        [Event.out "Running git command: /usr/bin/git show abc123",
         Event.spawn "/usr/bin/git" ["show", "abc123"]]) :=
  (getDiff_nonzero_exit_surfaces_stderr wFail1 "abc123" (by decide)
    ⟨1, "", "fatal: bad object abc123"⟩ (by decide)).2.2 rfl

/-- C7: the claude backend's `generateMessage` fails with the
`not implemented` message for every input diff text (the empty string
included), records no network request, and never returns a message. -/
theorem claude_backend_not_implemented (w : World) (diff : String) :
    generateMessage w Service.claude diff =
      (Except.error "Claude service not implemented yet", []) := rfl

/-! ### Reductions of `main` under explicit path hypotheses -/

/-- `main` on an unrecognized provider inside a repository: the failure is
raised right after the probe, with no backend constructed. -/
theorem main_unsupported_eq (w : World) (args : Args) (r : ProcOut)
    (hhelp : args.help = false)
    (hprobe : w.run (gitCommand w) probeArgs = Except.ok r) (hcode : r.code = 0)
    (hai : supportedProviders.contains args.ai = false) :
    main w args = (Except.error (unsupportedProviderMsg args.ai),
      [Event.spawn (gitCommand w) probeArgs]) := by
  have hai' : ¬ args.ai ∈ supportedProviders := by simpa using hai
  simp [main, hhelp, isGitRepository_run w r hprobe, hcode, hai']

/-- `main` with provider openai and a falsy `OPENAI_API_KEY` inside a
repository: construction fails, no diff subprocess is ever spawned. -/
theorem main_missing_openai_key_eq (w : World) (args : Args) (r : ProcOut)
    (hhelp : args.help = false) (hai : args.ai = "openai")
    (hkey : jsOr (w.vars "OPENAI_API_KEY") "" = "")
    (hprobe : w.run (gitCommand w) probeArgs = Except.ok r) (hcode : r.code = 0) :
    main w args = (Except.error openaiKeyMissingMsg,
      [Event.spawn (gitCommand w) probeArgs, Event.construct "openai"]) := by
  have hsvc : selectService w args.ai
      = (Except.error openaiKeyMissingMsg, [Event.construct "openai"]) := by
    rw [hai]
    simp [selectService, createOpenAIService, hkey]
  have hai' : args.ai ∈ supportedProviders := by rw [hai]; decide
  simp [main, hhelp, isGitRepository_run w r hprobe, hcode, hai', hsvc]

/-- `main` when the resolved diff trims to the empty string. -/
theorem main_empty_diff_eq (w : World) (args : Args) (r : ProcOut)
    (svc : Service) (t2 : List Event) (d : String) (t3 : List Event)
    (hhelp : args.help = false)
    (hprobe : w.run (gitCommand w) probeArgs = Except.ok r) (hcode : r.code = 0)
    (hai : supportedProviders.contains args.ai = true)
    (hsvc : selectService w args.ai = (Except.ok svc, t2))
    (hdiff : getDiff w args.source = (Except.ok d, t3))
    (hempty : jsTrim d = "") :
    main w args = (Except.ok (),
      Event.spawn (gitCommand w) probeArgs
        :: (t2 ++ (t3 ++ [Event.out noChangesMsg]))) := by
  have hai' : args.ai ∈ supportedProviders := by simpa using hai
  simp [main, hhelp, isGitRepository_run w r hprobe, hcode, hai', hsvc, hdiff,
    hempty]

/-- `main` when the backend was constructed but the selector is
unrecognized: construction has already happened when `Invalid source` is
raised. -/
theorem main_invalid_source_eq (w : World) (args : Args) (r : ProcOut)
    (svc : Service) (t2 : List Event)
    (hhelp : args.help = false)
    (hprobe : w.run (gitCommand w) probeArgs = Except.ok r) (hcode : r.code = 0)
    (hai : supportedProviders.contains args.ai = true)
    (hsvc : selectService w args.ai = (Except.ok svc, t2))
    (h1 : args.source ≠ "staged") (h2 : args.source ≠ "last")
    (h3 : strStartsWith args.source "commit:" = false) :
    main w args = (Except.error "Invalid source",
      Event.spawn (gitCommand w) probeArgs :: t2) := by
  have hai' : args.ai ∈ supportedProviders := by simpa using hai
  simp [main, hhelp, isGitRepository_run w r hprobe, hcode, hai', hsvc,
    getDiff_invalid_eq w args.source h1 h2 h3]

/-- `main` on the full success path. -/
theorem main_generate_ok_eq (w : World) (args : Args) (r : ProcOut)
    (svc : Service) (t2 : List Event) (d : String) (t3 : List Event)
    (m : String) (t5 : List Event)
    (hhelp : args.help = false)
    (hprobe : w.run (gitCommand w) probeArgs = Except.ok r) (hcode : r.code = 0)
    (hai : supportedProviders.contains args.ai = true)
    (hsvc : selectService w args.ai = (Except.ok svc, t2))
    (hdiff : getDiff w args.source = (Except.ok d, t3))
    (hne : ¬ jsTrim d = "")
    (hgen : generateMessage w svc d = (Except.ok m, t5)) :
    main w args = (Except.ok (),
      Event.spawn (gitCommand w) probeArgs :: (t2 ++ (t3 ++
        ((if args.verbose = true then [Event.out "Original Diff:", Event.out d]
          else []) ++
          Event.invokeGen :: (t5 ++
            ([Event.out "Suggested Commit Message:", Event.out m] ++
              (if args.command = true then
                [Event.out "\nRun the following command to commit:",
                 Event.out ("git commit -m \"" ++ m ++ "\"")]
               else []))))))) := by
  have hai' : args.ai ∈ supportedProviders := by simpa using hai
  by_cases hcmd : args.command = true <;>
    simp [main, hhelp, isGitRepository_run w r hprobe, hcode, hai', hsvc,
      hdiff, hne, hgen, hcmd]

/-- C2: whenever the resolved diff text trims to the empty string, `main`
prints the line `No changes to generate a message for.` exactly, as its
final output, never invokes any backend's `generateMessage`, and ends
without error. -/
theorem main_empty_diff_soft_exit (w : World) (args : Args) (r : ProcOut)
    (svc : Service) (t2 : List Event) (d : String) (t3 : List Event)
    (hhelp : args.help = false)
    (hprobe : w.run (gitCommand w) probeArgs = Except.ok r) (hcode : r.code = 0)
    (hai : supportedProviders.contains args.ai = true)
    (hsvc : selectService w args.ai = (Except.ok svc, t2))
    (hdiff : getDiff w args.source = (Except.ok d, t3))
    (hempty : jsTrim d = "") :
    (main w args).fst = Except.ok () ∧
    (main w args).snd.getLast? = some (Event.out noChangesMsg) ∧
    Event.invokeGen ∉ (main w args).snd := by
  have ht2 : Event.invokeGen ∉ t2 := by
    have h := invokeGen_notin_selectService w args.ai
    rw [hsvc] at h
    exact h
  have ht3 : Event.invokeGen ∉ t3 := by
    have h := invokeGen_notin_getDiff w args.source
    rw [hdiff] at h
    exact h
  rw [main_empty_diff_eq w args r svc t2 d t3 hhelp hprobe hcode hai hsvc
    hdiff hempty]
  refine ⟨rfl, ?_, ?_⟩
  · simp [List.getLast?_cons, List.getLast?_append]
  · simp [List.mem_cons, List.mem_append, ht2, ht3]

/-- C2 witness: provider claude, selector `staged`, underlying diff empty —
the run ends without error, its last output line is exactly the
`No changes` message, and the backend is never invoked. -/
theorem main_empty_diff_soft_exit_witness :
    (main wEmptyOut argsClaude).fst = Except.ok () ∧
    (main wEmptyOut argsClaude).snd.getLast? = some (Event.out noChangesMsg) ∧
    Event.invokeGen ∉ (main wEmptyOut argsClaude).snd :=
  main_empty_diff_soft_exit wEmptyOut argsClaude ⟨0, "", ""⟩ Service.claude
    [Event.construct "claude"] ""
    [Event.out "Running git command: /usr/bin/git diff --cached",
     Event.spawn "/usr/bin/git" ["diff", "--cached"]]
    rfl rfl rfl rfl rfl rfl rfl

/-- C3 counterexample: the claim requires the `UnsupportedProvider` failure
to happen before the repository-membership probe runs (and before any
backend construction), i.e. with an event trace free of spawns; with
provider `foo` in a repository the code's trace contains the probe spawn,
refuting the claim. -/
theorem main_unsupported_provider_cex :
    ¬ (∀ (w : World) (args : Args), args.help = false →
        supportedProviders.contains args.ai = false →
        (main w args).fst = Except.error (unsupportedProviderMsg args.ai) ∧
        (∀ x a, Event.spawn x a ∉ (main w args).snd) ∧
        (∀ p, Event.construct p ∉ (main w args).snd)) := by
  intro hcl
  have h := hcl wOk argsFoo rfl rfl
  exact h.2.1 "/usr/bin/git" probeArgs (by decide)

/-- C3 amended: inside a repository, every provider string outside
`{openai, claude, google}` makes `main` fail with the `UnsupportedProvider`
message listing the allowed set; the failure happens before any backend is
constructed, but after the repository-membership probe has run (the trace
is exactly the probe spawn). -/
theorem main_unsupported_provider_after_probe (w : World) (args : Args)
    (r : ProcOut) (hhelp : args.help = false)
    (hprobe : w.run (gitCommand w) probeArgs = Except.ok r) (hcode : r.code = 0)
    (hai : supportedProviders.contains args.ai = false) :
    main w args = (Except.error (unsupportedProviderMsg args.ai),
      [Event.spawn (gitCommand w) probeArgs]) :=
  main_unsupported_eq w args r hhelp hprobe hcode hai

/-- C3 witness: provider `foo` in a repository fails with the listing
message after exactly the probe spawn. -/
theorem main_unsupported_provider_after_probe_witness :
    main wOk argsFoo = (Except.error
      "Unsupported AI provider: foo. Supported providers: openai, claude, google",
      [Event.spawn "/usr/bin/git" probeArgs]) :=
  main_unsupported_provider_after_probe wOk argsFoo ⟨0, "OUT", ""⟩ rfl rfl rfl rfl

/-- C4 counterexample: the claim conjoins (a) `MissingCredential` at
construction before diff resolution with (b) backend construction occurring
after diff-source validation in source order — (b) would mean a run with an
invalid selector never constructs a backend; with the key set, provider
openai and selector `foo`, the code's trace contains the construction
event, refuting the conjunction. -/
theorem main_construction_order_cex :
    ¬ ((∀ (w : World) (args : Args) (r : ProcOut),
          args.help = false → args.ai = "openai" →
          jsOr (w.vars "OPENAI_API_KEY") "" = "" →
          w.run (gitCommand w) probeArgs = Except.ok r → r.code = 0 →
          (main w args).fst = Except.error openaiKeyMissingMsg ∧
          (∀ cmd, cmd ≠ probeArgs →
            Event.spawn (gitCommand w) cmd ∉ (main w args).snd)) ∧
       (∀ (w : World) (args : Args),
          args.source ≠ "staged" → args.source ≠ "last" →
          strStartsWith args.source "commit:" = false →
          ∀ p, Event.construct p ∉ (main w args).snd)) := by
  intro hcl
  exact hcl.2 wKeyed argsOpenaiFoo (by decide) (by decide) (by decide)
    "openai" (by decide)

/-- C4 amended: with provider openai and a falsy credential, the
`MissingCredential` failure is raised at backend construction, before diff
resolution is even requested (the trace ends at the construction event);
and in source order backend construction happens after provider validation
but before diff retrieval and before diff-source validation — with an
invalid selector the failure is `Invalid source`, raised only after the
backend construction event is already in the trace. -/
theorem main_openai_credential_construction_order :
    (∀ (w : World) (args : Args) (r : ProcOut),
        args.help = false → args.ai = "openai" →
        jsOr (w.vars "OPENAI_API_KEY") "" = "" →
        w.run (gitCommand w) probeArgs = Except.ok r → r.code = 0 →
        main w args = (Except.error openaiKeyMissingMsg,
          [Event.spawn (gitCommand w) probeArgs, Event.construct "openai"])) ∧
    (∀ (w : World) (args : Args) (r : ProcOut) (svc : Service) (t2 : List Event),
        args.help = false →
        w.run (gitCommand w) probeArgs = Except.ok r → r.code = 0 →
        supportedProviders.contains args.ai = true →
        selectService w args.ai = (Except.ok svc, t2) →
        args.source ≠ "staged" → args.source ≠ "last" →
        strStartsWith args.source "commit:" = false →
        main w args = (Except.error "Invalid source",
          Event.spawn (gitCommand w) probeArgs :: t2)) :=
  ⟨fun w args r hhelp hai hkey hprobe hcode =>
    main_missing_openai_key_eq w args r hhelp hai hkey hprobe hcode,
   fun w args r svc t2 hhelp hprobe hcode hai hsvc h1 h2 h3 =>
    main_invalid_source_eq w args r svc t2 hhelp hprobe hcode hai hsvc h1 h2 h3⟩

/-- C4 witness: with no key set, `main` fails with the missing-credential
message right at construction; with the key set and selector `foo`, the
`Invalid source` failure comes after the construction event. -/
theorem main_openai_credential_construction_order_witness :
    main wOk argsDefault = (Except.error openaiKeyMissingMsg,
      [Event.spawn "/usr/bin/git" probeArgs, Event.construct "openai"]) ∧
    main wKeyed argsOpenaiFoo = (Except.error "Invalid source",
      [Event.spawn "/usr/bin/git" probeArgs, Event.construct "openai"]) :=
  ⟨main_openai_credential_construction_order.1 wOk argsDefault
      ⟨0, "OUT", ""⟩ rfl rfl rfl rfl rfl,
   main_openai_credential_construction_order.2 wKeyed argsOpenaiFoo
      ⟨0, "OUT", ""⟩ (Service.openai "sk-test") [Event.construct "openai"]
      rfl rfl rfl rfl rfl (by decide) (by decide) (by decide)⟩

/-- C8: when the command flag is set and generation succeeds with message
`m`, the final printed line of the run is exactly
`git commit -m "` ++ m ++ `"`, with no escaping applied, and the run ends
without error. -/
theorem main_command_flag_final_line (w : World) (args : Args) (r : ProcOut)
    (svc : Service) (t2 : List Event) (d : String) (t3 : List Event)
    (m : String) (t5 : List Event)
    (hhelp : args.help = false) (hcmd : args.command = true)
    (hprobe : w.run (gitCommand w) probeArgs = Except.ok r) (hcode : r.code = 0)
    (hai : supportedProviders.contains args.ai = true)
    (hsvc : selectService w args.ai = (Except.ok svc, t2))
    (hdiff : getDiff w args.source = (Except.ok d, t3))
    (hne : ¬ jsTrim d = "")
    (hgen : generateMessage w svc d = (Except.ok m, t5)) :
    (main w args).fst = Except.ok () ∧
    (main w args).snd.getLast?
      = some (Event.out ("git commit -m \"" ++ m ++ "\"")) := by
  rw [main_generate_ok_eq w args r svc t2 d t3 m t5 hhelp hprobe hcode hai
    hsvc hdiff hne hgen, hcmd]
  refine ⟨rfl, ?_⟩
  simp [List.getLast?_cons, List.getLast?_append]

/-- C8 witness: generated message `Fix bug` with the command flag set — the
final printed line is exactly `git commit -m "Fix bug"`. -/
theorem main_command_flag_final_line_witness :
    (main wKeyed argsCmd).fst = Except.ok () ∧
    (main wKeyed argsCmd).snd.getLast?
      = some (Event.out "git commit -m \"Fix bug\"") :=
  main_command_flag_final_line wKeyed argsCmd ⟨0, "OUT", ""⟩
    (Service.openai "sk-test") [Event.construct "openai"] "OUT"
    [Event.out "Running git command: /usr/bin/git diff --cached",
     Event.spawn "/usr/bin/git" ["diff", "--cached"]]
    "Fix bug" [Event.net "openai"]
    rfl rfl rfl rfl rfl rfl rfl (by decide) rfl

/-- C9 counterexample: the claim says the repository-detection probe never
raises and totally evaluates to a boolean in every environment, including
one where the executable is missing; in a world whose subprocess spawn
fails, `isGitRepository` propagates the failure instead. -/
theorem isGitRepository_total_cex :
    ¬ (∀ w : World, ∃ b : Bool,
        (isGitRepository w).fst = Except.ok b ∧
        (∀ r, w.run (gitCommand w) probeArgs = Except.ok r → r.code ≠ 0 →
          b = false)) := by
  intro hcl
  obtain ⟨b, hb, -⟩ := hcl wSpawnFail
  rw [show (isGitRepository wSpawnFail).fst
    = Except.error "No such file or directory (os error 2)" from rfl] at hb
  exact Except.noConfusion hb

/-- C9 amended: whenever the probe subprocess itself can be spawned, the
probe totally evaluates to a boolean, treating any non-zero exit as "not a
repository"; a spawn failure (e.g. a missing executable) instead propagates
as an exception. -/
theorem isGitRepository_boolean_on_spawn (w : World) (r : ProcOut)
    (h : w.run (gitCommand w) probeArgs = Except.ok r) :
    (isGitRepository w).fst = Except.ok (r.code == 0) ∧
    (r.code ≠ 0 → (isGitRepository w).fst = Except.ok false) := by
  refine ⟨?_, fun hnz => ?_⟩
  · rw [isGitRepository_run w r h]
  · rw [isGitRepository_run w r h]
    simpa using hnz

/-- C9 witness: probe exit code 128 yields `false` without raising. -/
theorem isGitRepository_boolean_on_spawn_witness :
    (isGitRepository wCode128).fst = Except.ok false :=
  (isGitRepository_boolean_on_spawn wCode128
    ⟨128, "", "fatal: not a git repository"⟩ rfl).2 (by decide)

/-- C10: for both the openai and the google backend, a credential variable
set to the empty string is treated exactly like an absent credential:
construction fails with the missing-credential message either way. -/
theorem empty_credential_equals_absent (w : World)
    (ho : w.vars "OPENAI_API_KEY" = none ∨ w.vars "OPENAI_API_KEY" = some "")
    (hg : w.vars "GOOGLE_API_KEY" = none ∨ w.vars "GOOGLE_API_KEY" = some "") :
    createOpenAIService w
      = (Except.error openaiKeyMissingMsg, [Event.construct "openai"]) ∧
    createGoogleService w
      = (Except.error googleKeyMissingMsg, [Event.construct "google"]) := by
  have ho' : jsOr (w.vars "OPENAI_API_KEY") "" = "" := by
    rcases ho with h | h <;> simp [jsOr, h]
  have hg' : jsOr (w.vars "GOOGLE_API_KEY") "" = "" := by
    rcases hg with h | h <;> simp [jsOr, h]
  exact ⟨by simp [createOpenAIService, ho'], by simp [createGoogleService, hg']⟩

/-- C10 witness: with both credentials set to the empty string, both
factories fail exactly as with absent credentials. -/
theorem empty_credential_equals_absent_witness :
    createOpenAIService wEmptyStr
      = (Except.error openaiKeyMissingMsg, [Event.construct "openai"]) ∧
    createGoogleService wEmptyStr
      = (Except.error googleKeyMissingMsg, [Event.construct "google"]) :=
  empty_credential_equals_absent wEmptyStr (Or.inr rfl) (Or.inr rfl)

end CommitAI
